import Mathlib

/-
Shallow embedding of the two demo pages of this repository: an SSR page
and an ISR page. Each page performs four sequential outbound HTTP calls,
each wrapped in its own try/catch, and collects one FetchTestResult
record per call into a fetchTests array, which the page component then
renders. Outbound calls are external effects, so each call is modelled
by an input of type FetchOutcome: either the fetch (or a later body
read) throws, or it completes with a Response carrying a numeric status,
the optional oe-proxy-used header, and the result of reading the JSON
body (which may itself throw). Nondeterministic environment reads
(Date, Math.random) are inputs as well.
-/

/-- Minimal model of a JavaScript JSON value, as returned by a call of
response.json on a completed response. -/
inductive JsonVal where
  | null : JsonVal
  | bool : Bool → JsonVal
  | num : Int → JsonVal
  | str : String → JsonVal
  | arr : List JsonVal → JsonVal
  | obj : List (String × JsonVal) → JsonVal

mutual

/-- Model of JSON.stringify on a JsonVal (string escaping elided: the
claims never inspect the content of a stringified body). -/
def jsStringify : JsonVal → String
  | JsonVal.null => "null"
  | JsonVal.bool b => if b then "true" else "false"
  | JsonVal.num n => toString n
  | JsonVal.str s => "\"" ++ s ++ "\""
  | JsonVal.arr xs => "[" ++ jsStringifyItems xs ++ "]"
  | JsonVal.obj fs => "\x7b" ++ jsStringifyFields fs ++ "\x7d"

/-- Comma-joined stringification of array elements. -/
def jsStringifyItems : List JsonVal → String
  | [] => ""
  | [x] => jsStringify x
  | x :: xs => jsStringify x ++ "," ++ jsStringifyItems xs

/-- Comma-joined stringification of object fields. -/
def jsStringifyFields : List (String × JsonVal) → String
  | [] => ""
  | [(k, v)] => "\"" ++ k ++ "\":" ++ jsStringify v
  | (k, v) :: fs => "\"" ++ k ++ "\":" ++ jsStringify v ++ "," ++ jsStringifyFields fs

end

mutual

/-- Model of JavaScript string coercion of a value, as in a template
literal. -/
def jsToString : JsonVal → String
  | JsonVal.null => "null"
  | JsonVal.bool b => if b then "true" else "false"
  | JsonVal.num n => toString n
  | JsonVal.str s => s
  | JsonVal.arr xs => jsToStringItems xs
  | JsonVal.obj _ => "[object Object]"

/-- Comma-joined coercion of array elements; a null element joins as
the empty string, as in the JS join of an array. -/
def jsToStringItems : List JsonVal → String
  | [] => ""
  | [JsonVal.null] => ""
  | [x] => jsToString x
  | JsonVal.null :: xs => "," ++ jsToStringItems xs
  | x :: xs => jsToString x ++ "," ++ jsToStringItems xs

end

/-- Model of JavaScript truthiness of a JSON value. -/
def jsTruthy : JsonVal → Bool
  | JsonVal.null => false
  | JsonVal.bool b => b
  | JsonVal.num n => n != 0
  | JsonVal.str s => s != ""
  | JsonVal.arr _ => true
  | JsonVal.obj _ => true

/-- Property access on a JSON value after a null guard: field lookup
on an object, absent (undefined) on another non-null base. -/
def jsGetField : JsonVal → String → Option JsonVal
  | JsonVal.obj fs, k => (fs.find? (fun p => p.1 = k)).map Prod.snd
  | _, _ => none

/-- Property access on a JSON value as evaluated inside a try block: a
TypeError on a null base (the engine-specific message text is
abstracted to a fixed form naming the key), the absent value
(undefined) on another non-object base, and field lookup on an
object. -/
def jsAccess : JsonVal → String → Except String (Option JsonVal)
  | JsonVal.null, k =>
      Except.error ("Cannot read properties of null (reading " ++ k ++ ")")
  | JsonVal.obj fs, k => Except.ok ((fs.find? (fun p => p.1 = k)).map Prod.snd)
  | _, _ => Except.ok none

/-- Optionally chained access on a value that may be undefined: it
short-circuits to undefined when the base is undefined or null, and is
otherwise a plain access, which cannot throw on a non-null base. -/
def jsOptChain : Option JsonVal → String → Option JsonVal
  | none, _ => none
  | some JsonVal.null, _ => none
  | some v, k => jsGetField v k

/-- Model of the pattern x || fallback on the result of headers.get:
the header value is used when present and non-empty (truthy), otherwise
the fallback string. -/
def jsOrString : Option String → String → String
  | some s, fallback => if s = "" then fallback else s
  | none, fallback => fallback

/-- Model of the pattern v || fallback on an optionally-chained JSON
field access, coerced to a string for a template literal. -/
def jsOrVal : Option JsonVal → String → String
  | some v, fallback => if jsTruthy v then jsToString v else fallback
  | none, fallback => fallback

/-- One record of the fetchTests array. Optional fields are absent by
default, exactly as the object literals in the source set only some of
them. The cacheInfo field is used by the ISR page only. -/
structure FetchTestResult where
  test : String
  status : String
  statusCode : Option Nat := none
  proxyUsed : Option String := none
  error : Option String := none
  data : Option String := none
  cacheInfo : Option String := none
  deriving DecidableEq

/-- A completed HTTP response: numeric status code, the oe-proxy-used
header (none when absent), and the outcome of reading the JSON body,
which either throws with a message or yields a JSON value. -/
structure Response where
  status : Nat
  oeProxyUsed : Option String
  json : Except String JsonVal

/-- Model of response.ok: the status code is in the 2xx class. -/
def Response.ok (r : Response) : Bool :=
  decide (200 ≤ r.status ∧ r.status ≤ 299)

/-- Outcome of one outbound fetch call: the fetch rejects with an
exception whose display text is the given message (the source converts
the caught value with: error instanceof Error, then error.message, else
String of the error), or it resolves with a response. -/
inductive FetchOutcome where
  | thrown : String → FetchOutcome
  | response : Response → FetchOutcome

/-- An outbound HTTP request as issued by one test block. -/
structure HttpRequest where
  method : String
  url : String
  deriving DecidableEq

/-- Request of SSR test 1, a GET of the json endpoint. -/
def ssrRequest1 : HttpRequest := ⟨"GET", "https://httpbin.org/json"⟩

/-- Request of SSR test 2, a GET of the two-second delay endpoint. -/
def ssrRequest2 : HttpRequest := ⟨"GET", "https://httpbin.org/delay/2"⟩

/-- Request of SSR test 3, a GET aimed at a non-existent domain. -/
def ssrRequest3 : HttpRequest := ⟨"GET", "https://non-existent-domain-12345.com/api/test"⟩

/-- Request of SSR test 4, a POST with a JSON body. -/
def ssrRequest4 : HttpRequest := ⟨"POST", "https://httpbin.org/post"⟩

/-- Request of ISR test 1, a GET of the uuid endpoint. -/
def isrRequest1 : HttpRequest := ⟨"GET", "https://httpbin.org/uuid"⟩

/-- Request of ISR test 2, a GET of the ip endpoint. -/
def isrRequest2 : HttpRequest := ⟨"GET", "https://httpbin.org/ip"⟩

/-- Request of ISR test 3, a GET of the one-second delay endpoint. -/
def isrRequest3 : HttpRequest := ⟨"GET", "https://httpbin.org/delay/1"⟩

/-- Request of ISR test 4, a GET of the status-500 endpoint. -/
def isrRequest4 : HttpRequest := ⟨"GET", "https://httpbin.org/status/500"⟩

/-- The four outbound requests attempted by getSSRData, in source
order; each try block issues its fetch unconditionally as its first
statement, so the sequence does not depend on any outcome. -/
def getSSRDataRequests : List HttpRequest :=
  [ssrRequest1, ssrRequest2, ssrRequest3, ssrRequest4]

/-- The four outbound requests attempted by getISRData, in source
order. -/
def getISRDataRequests : List HttpRequest :=
  [isrRequest1, isrRequest2, isrRequest3, isrRequest4]

/-- Record appended by SSR test 1 (Normal Fetch): on a 2xx response
whose body reads as JSON, a SUCCESS record with the status code, the
proxy header or the fallback unknown, and a truncated body preview; on
a non-2xx response an HTTP_ERROR record; on a throw of the fetch or of
the body read, a NETWORK_ERROR record with the exception message. -/
def ssrTest1Record : FetchOutcome → FetchTestResult
  | FetchOutcome.thrown msg =>
      { test := "Normal Fetch", status := "NETWORK_ERROR", error := some msg }
  | FetchOutcome.response r =>
      if r.ok then
        match r.json with
        | Except.error msg =>
            { test := "Normal Fetch", status := "NETWORK_ERROR", error := some msg }
        | Except.ok d =>
            { test := "Normal Fetch", status := "SUCCESS",
              statusCode := some r.status,
              proxyUsed := some (jsOrString r.oeProxyUsed "unknown"),
              data := some ((jsStringify d).take 100 ++ "...") }
      else
        { test := "Normal Fetch", status := "HTTP_ERROR",
          statusCode := some r.status,
          error := some ("HTTP " ++ toString r.status) }

/-- Record appended by SSR test 2 (Timeout Test): as test 1, but the
proxy fallback string is likely_proxy, the data field is a fixed
message, and the catch record also carries proxyUsed likely_proxy. -/
def ssrTest2Record : FetchOutcome → FetchTestResult
  | FetchOutcome.thrown msg =>
      { test := "Timeout Test", status := "NETWORK_ERROR", error := some msg,
        proxyUsed := some "likely_proxy" }
  | FetchOutcome.response r =>
      if r.ok then
        match r.json with
        | Except.error msg =>
            { test := "Timeout Test", status := "NETWORK_ERROR", error := some msg,
              proxyUsed := some "likely_proxy" }
        | Except.ok _ =>
            { test := "Timeout Test", status := "SUCCESS",
              statusCode := some r.status,
              proxyUsed := some (jsOrString r.oeProxyUsed "likely_proxy"),
              data := some "Delayed response received" }
      else
        { test := "Timeout Test", status := "HTTP_ERROR",
          statusCode := some r.status,
          error := some ("HTTP " ++ toString r.status) }

/-- Record appended by SSR test 3 (Non-existent Domain): any completed
response, of any status class and with no body read, yields an
UNEXPECTED_SUCCESS record; a throw yields an EXPECTED_ERROR record. -/
def ssrTest3Record : FetchOutcome → FetchTestResult
  | FetchOutcome.thrown msg =>
      { test := "Non-existent Domain", status := "EXPECTED_ERROR",
        error := some msg, proxyUsed := some "proxy_attempted" }
  | FetchOutcome.response r =>
      { test := "Non-existent Domain", status := "UNEXPECTED_SUCCESS",
        statusCode := some r.status, proxyUsed := some "definitely_proxy" }

/-- Record appended by SSR test 4 (POST Request): the data field of
the success record interpolates the optionally chained test field of
the json property of the body, with the fallback POST data; the base
access of the json property throws a TypeError when the body is null
(before the optional chain applies), landing in the catch, which
records NETWORK_ERROR with only the message. -/
def ssrTest4Record : FetchOutcome → FetchTestResult
  | FetchOutcome.thrown msg =>
      { test := "POST Request", status := "NETWORK_ERROR", error := some msg }
  | FetchOutcome.response r =>
      if r.ok then
        match r.json with
        | Except.error msg =>
            { test := "POST Request", status := "NETWORK_ERROR", error := some msg }
        | Except.ok d =>
            match jsAccess d "json" with
            | Except.error msg =>
                { test := "POST Request", status := "NETWORK_ERROR", error := some msg }
            | Except.ok jv =>
                { test := "POST Request", status := "SUCCESS",
                  statusCode := some r.status,
                  proxyUsed := some (jsOrString r.oeProxyUsed "unknown"),
                  data := some ("Received: " ++
                    jsOrVal (jsOptChain jv "test") "POST data") }
      else
        { test := "POST Request", status := "HTTP_ERROR",
          statusCode := some r.status,
          error := some ("HTTP " ++ toString r.status) }

/-- Record appended by ISR test 1 (ISR Cached Fetch): the data field
holds the uuid property of the body; that access throws a TypeError
when the body is null, landing in the catch, which records
NETWORK_ERROR with the message and proxyUsed likely_proxy. -/
def isrTest1Record : FetchOutcome → FetchTestResult
  | FetchOutcome.thrown msg =>
      { test := "ISR Cached Fetch", status := "NETWORK_ERROR", error := some msg,
        proxyUsed := some "likely_proxy" }
  | FetchOutcome.response r =>
      if r.ok then
        match r.json with
        | Except.error msg =>
            { test := "ISR Cached Fetch", status := "NETWORK_ERROR", error := some msg,
              proxyUsed := some "likely_proxy" }
        | Except.ok d =>
            match jsAccess d "uuid" with
            | Except.error msg =>
                { test := "ISR Cached Fetch", status := "NETWORK_ERROR", error := some msg,
                  proxyUsed := some "likely_proxy" }
            | Except.ok v =>
                { test := "ISR Cached Fetch", status := "SUCCESS",
                  statusCode := some r.status,
                  proxyUsed := some (jsOrString r.oeProxyUsed "unknown"),
                  data := v.map jsToString,
                  cacheInfo := some "Cached with ISR revalidation" }
      else
        { test := "ISR Cached Fetch", status := "HTTP_ERROR",
          statusCode := some r.status,
          error := some ("HTTP " ++ toString r.status) }

/-- Record appended by ISR test 2 (No-Cache Fetch): the data field
holds the origin property of the body; that access throws a TypeError
when the body is null, landing in the catch, which records
NETWORK_ERROR with the message and proxyUsed likely_proxy. -/
def isrTest2Record : FetchOutcome → FetchTestResult
  | FetchOutcome.thrown msg =>
      { test := "No-Cache Fetch", status := "NETWORK_ERROR", error := some msg,
        proxyUsed := some "likely_proxy" }
  | FetchOutcome.response r =>
      if r.ok then
        match r.json with
        | Except.error msg =>
            { test := "No-Cache Fetch", status := "NETWORK_ERROR", error := some msg,
              proxyUsed := some "likely_proxy" }
        | Except.ok d =>
            match jsAccess d "origin" with
            | Except.error msg =>
                { test := "No-Cache Fetch", status := "NETWORK_ERROR", error := some msg,
                  proxyUsed := some "likely_proxy" }
            | Except.ok v =>
                { test := "No-Cache Fetch", status := "SUCCESS",
                  statusCode := some r.status,
                  proxyUsed := some (jsOrString r.oeProxyUsed "unknown"),
                  data := v.map jsToString,
                  cacheInfo := some "No cache - fresh request" }
      else
        { test := "No-Cache Fetch", status := "HTTP_ERROR",
          statusCode := some r.status,
          error := some ("HTTP " ++ toString r.status) }

/-- Record appended by ISR test 3 (Slow Endpoint): the proxy fallback
string is likely_proxy; the catch record carries proxy_attempted. -/
def isrTest3Record : FetchOutcome → FetchTestResult
  | FetchOutcome.thrown msg =>
      { test := "Slow Endpoint", status := "NETWORK_ERROR", error := some msg,
        proxyUsed := some "proxy_attempted" }
  | FetchOutcome.response r =>
      if r.ok then
        match r.json with
        | Except.error msg =>
            { test := "Slow Endpoint", status := "NETWORK_ERROR", error := some msg,
              proxyUsed := some "proxy_attempted" }
        | Except.ok _ =>
            { test := "Slow Endpoint", status := "SUCCESS",
              statusCode := some r.status,
              proxyUsed := some (jsOrString r.oeProxyUsed "likely_proxy"),
              data := some "Delayed response received",
              cacheInfo := some "Cached after successful proxy request" }
      else
        { test := "Slow Endpoint", status := "HTTP_ERROR",
          statusCode := some r.status,
          error := some ("HTTP " ++ toString r.status) }

/-- Record appended by ISR test 4 (Error Endpoint): any completed
response, of any status class and with no body read, yields an
HTTP_ERROR record carrying the status code, the proxy header or the
fallback unknown, and a server-returned message. -/
def isrTest4Record : FetchOutcome → FetchTestResult
  | FetchOutcome.thrown msg =>
      { test := "Error Endpoint", status := "NETWORK_ERROR", error := some msg,
        proxyUsed := some "proxy_attempted" }
  | FetchOutcome.response r =>
      { test := "Error Endpoint", status := "HTTP_ERROR",
        statusCode := some r.status,
        proxyUsed := some (jsOrString r.oeProxyUsed "unknown"),
        error := some ("Server returned " ++ toString r.status),
        cacheInfo := some "Error responses may not be cached" }

/-- Environment reads made by getSSRData before the fetches: three
timestamps from Date, a random value below 1000, Date.now, and a
random base36 hash fragment. -/
structure SSREnv where
  requestTime : String
  serverTime : String
  dataFetchTime : String
  realtimeValue : Nat
  timestamp : Nat
  serverHash : String

/-- The results object getSSRData returns. -/
structure SSRResults where
  requestTime : String
  serverTime : String
  dataFetchTime : String
  realtimeValue : Nat
  timestamp : Nat
  serverHash : String
  fetchTests : List FetchTestResult

/-- Model of getSSRData: the results object starts with an empty
fetchTests array and each of the four guarded test blocks appends
exactly one record, a function of only the outcome of its own call. -/
def getSSRData (env : SSREnv) (o1 o2 o3 o4 : FetchOutcome) : SSRResults :=
  let fetchTests : List FetchTestResult := []
  let fetchTests := fetchTests ++ [ssrTest1Record o1]
  let fetchTests := fetchTests ++ [ssrTest2Record o2]
  let fetchTests := fetchTests ++ [ssrTest3Record o3]
  let fetchTests := fetchTests ++ [ssrTest4Record o4]
  { requestTime := env.requestTime
    serverTime := env.serverTime
    dataFetchTime := env.dataFetchTime
    realtimeValue := env.realtimeValue
    timestamp := env.timestamp
    serverHash := env.serverHash
    fetchTests := fetchTests }

/-- Environment read made by getISRData: the build timestamp. -/
structure ISREnv where
  buildTime : String

/-- The results object getISRData returns. -/
structure ISRResults where
  buildTime : String
  cacheStatus : String
  fetchTests : List FetchTestResult

/-- Model of getISRData: as getSSRData, with a fixed cacheStatus
string and the four ISR test blocks. -/
def getISRData (env : ISREnv) (o1 o2 o3 o4 : FetchOutcome) : ISRResults :=
  let fetchTests : List FetchTestResult := []
  let fetchTests := fetchTests ++ [isrTest1Record o1]
  let fetchTests := fetchTests ++ [isrTest2Record o2]
  let fetchTests := fetchTests ++ [isrTest3Record o3]
  let fetchTests := fetchTests ++ [isrTest4Record o4]
  { buildTime := env.buildTime
    cacheStatus := "cached for 10 seconds"
    fetchTests := fetchTests }

/-- Badge class chosen by the JSX conditional chain shared by both
pages; statuses outside the four listed ones fall through to gray. -/
def statusBadgeClass (s : String) : String :=
  if s = "SUCCESS" then "bg-green-600 text-white"
  else if s = "EXPECTED_ERROR" then "bg-yellow-600 text-white"
  else if s = "NETWORK_ERROR" then "bg-red-600 text-white"
  else if s = "HTTP_ERROR" then "bg-orange-600 text-white"
  else "bg-gray-600 text-white"

/-- One rendered test block: heading, badge, and the optional detail
rows, each shown only when the corresponding field is truthy (a zero
status code or an empty string is falsy and hidden). -/
structure TestDisplayBlock where
  heading : String
  badgeClass : String
  badgeText : String
  statusCodeRow : Option String
  proxyUsedRow : Option String
  cacheInfoRow : Option String
  errorRow : Option String
  dataRow : Option String
  deriving DecidableEq

/-- Truthiness guard of an optional numeric field in JSX: a zero value
is falsy, so the guarded row markup is not rendered, but the guard
expression then evaluates to the number itself and React renders the
bare digit zero as text, so the rendered output is the string 0. -/
def truthyNatRow : Option Nat → Option String
  | some n => if n = 0 then some "0" else some (toString n)
  | none => none

/-- Truthiness guard of an optional string field in JSX. -/
def truthyStrRow : Option String → Option String
  | some s => if s = "" then none else some s
  | none => none

/-- Rendering of one record by the SSR page (no cacheInfo row). -/
def renderSSRTestBlock (t : FetchTestResult) : TestDisplayBlock :=
  { heading := t.test
    badgeClass := statusBadgeClass t.status
    badgeText := t.status
    statusCodeRow := truthyNatRow t.statusCode
    proxyUsedRow := truthyStrRow t.proxyUsed
    cacheInfoRow := none
    errorRow := truthyStrRow t.error
    dataRow := truthyStrRow t.data }

/-- Rendering of one record by the ISR page (with a cacheInfo row). -/
def renderISRTestBlock (t : FetchTestResult) : TestDisplayBlock :=
  { heading := t.test
    badgeClass := statusBadgeClass t.status
    badgeText := t.status
    statusCodeRow := truthyNatRow t.statusCode
    proxyUsedRow := truthyStrRow t.proxyUsed
    cacheInfoRow := truthyStrRow t.cacheInfo
    errorRow := truthyStrRow t.error
    dataRow := truthyStrRow t.data }

/-- What the SSR page component produces from the data: the summary
rows of the DataDisplay block and one rendered block per fetch test. -/
structure SSRPageView where
  summaryRows : List (String × String)
  testBlocks : List TestDisplayBlock

/-- What the ISR page component produces from the data. -/
structure ISRPageView where
  summaryRows : List (String × String)
  testBlocks : List TestDisplayBlock

/-- Model of the SSRPage component: awaits getSSRData and renders the
summary rows and every fetch test record. -/
def SSRPage (env : SSREnv) (o1 o2 o3 o4 : FetchOutcome) : SSRPageView :=
  let data := getSSRData env o1 o2 o3 o4
  { summaryRows :=
      [("Request Time", data.requestTime),
       ("Server Time", data.serverTime),
       ("Real-time Value", toString data.realtimeValue),
       ("Server Hash", data.serverHash),
       ("Fetch Tests Count", toString data.fetchTests.length)]
    testBlocks := data.fetchTests.map renderSSRTestBlock }

/-- Model of the ISRPage component. -/
def ISRPage (env : ISREnv) (o1 o2 o3 o4 : FetchOutcome) : ISRPageView :=
  let data := getISRData env o1 o2 o3 o4
  { summaryRows :=
      [("Page Build Time", data.buildTime),
       ("Cache Status", data.cacheStatus),
       ("Fetch Tests Count", toString data.fetchTests.length)]
    testBlocks := data.fetchTests.map renderISRTestBlock }

/-- Membership of a status string in the five-value enumeration that
the spec lists. -/
def validStatus (s : String) : Bool :=
  s == "SUCCESS" || s == "HTTP_ERROR" || s == "NETWORK_ERROR" ||
  s == "EXPECTED_ERROR" || s == "UNEXPECTED_SUCCESS"

/-- Membership of a status string among the three statuses that only a
completed response produces. -/
def responseStatus (s : String) : Bool :=
  s == "SUCCESS" || s == "HTTP_ERROR" || s == "UNEXPECTED_SUCCESS"

/-- Field discipline of one record: a catch-block status carries no
statusCode and no data, and a set statusCode or data field only occurs
with a status that a completed response produces. -/
def fieldDiscipline (t : FetchTestResult) : Bool :=
  (!(t.status == "NETWORK_ERROR" || t.status == "EXPECTED_ERROR") ||
    (t.statusCode == none && t.data == none)) &&
  (!(t.statusCode != none || t.data != none) || responseStatus t.status)

/-- Case analysis on SSR test 1: the record status is always in the
enumeration and the catch-only fields stay clear. -/
theorem ssrTest1Record_props (o : FetchOutcome) :
    validStatus (ssrTest1Record o).status = true ∧
    fieldDiscipline (ssrTest1Record o) = true := by
  rcases o with msg | r
  · exact ⟨rfl, rfl⟩
  · by_cases hok : r.ok = true
    · rcases hj : r.json with msg | d <;>
        simp [ssrTest1Record, hj, hok, validStatus, fieldDiscipline, responseStatus]
    · simp [ssrTest1Record, hok, validStatus, fieldDiscipline, responseStatus]

/-- Case analysis on SSR test 2. -/
theorem ssrTest2Record_props (o : FetchOutcome) :
    validStatus (ssrTest2Record o).status = true ∧
    fieldDiscipline (ssrTest2Record o) = true := by
  rcases o with msg | r
  · exact ⟨rfl, rfl⟩
  · by_cases hok : r.ok = true
    · rcases hj : r.json with msg | d <;>
        simp [ssrTest2Record, hj, hok, validStatus, fieldDiscipline, responseStatus]
    · simp [ssrTest2Record, hok, validStatus, fieldDiscipline, responseStatus]

/-- Case analysis on SSR test 3. -/
theorem ssrTest3Record_props (o : FetchOutcome) :
    validStatus (ssrTest3Record o).status = true ∧
    fieldDiscipline (ssrTest3Record o) = true := by
  rcases o with msg | r <;> exact ⟨rfl, rfl⟩

/-- Case analysis on SSR test 4. -/
theorem ssrTest4Record_props (o : FetchOutcome) :
    validStatus (ssrTest4Record o).status = true ∧
    fieldDiscipline (ssrTest4Record o) = true := by
  rcases o with msg | r
  · exact ⟨rfl, rfl⟩
  · by_cases hok : r.ok = true
    · rcases hj : r.json with msg | d
      · simp [ssrTest4Record, hj, hok, validStatus, fieldDiscipline, responseStatus]
      · rcases ha : jsAccess d "json" with msg | jv <;>
          simp [ssrTest4Record, hj, hok, ha, validStatus, fieldDiscipline, responseStatus]
    · simp [ssrTest4Record, hok, validStatus, fieldDiscipline, responseStatus]

/-- Case analysis on ISR test 1. -/
theorem isrTest1Record_props (o : FetchOutcome) :
    validStatus (isrTest1Record o).status = true ∧
    fieldDiscipline (isrTest1Record o) = true := by
  rcases o with msg | r
  · exact ⟨rfl, rfl⟩
  · by_cases hok : r.ok = true
    · rcases hj : r.json with msg | d
      · simp [isrTest1Record, hj, hok, validStatus, fieldDiscipline, responseStatus]
      · rcases ha : jsAccess d "uuid" with msg | v <;>
          simp [isrTest1Record, hj, hok, ha, validStatus, fieldDiscipline, responseStatus]
    · simp [isrTest1Record, hok, validStatus, fieldDiscipline, responseStatus]

/-- Case analysis on ISR test 2. -/
theorem isrTest2Record_props (o : FetchOutcome) :
    validStatus (isrTest2Record o).status = true ∧
    fieldDiscipline (isrTest2Record o) = true := by
  rcases o with msg | r
  · exact ⟨rfl, rfl⟩
  · by_cases hok : r.ok = true
    · rcases hj : r.json with msg | d
      · simp [isrTest2Record, hj, hok, validStatus, fieldDiscipline, responseStatus]
      · rcases ha : jsAccess d "origin" with msg | v <;>
          simp [isrTest2Record, hj, hok, ha, validStatus, fieldDiscipline, responseStatus]
    · simp [isrTest2Record, hok, validStatus, fieldDiscipline, responseStatus]

/-- Case analysis on ISR test 3. -/
theorem isrTest3Record_props (o : FetchOutcome) :
    validStatus (isrTest3Record o).status = true ∧
    fieldDiscipline (isrTest3Record o) = true := by
  rcases o with msg | r
  · exact ⟨rfl, rfl⟩
  · by_cases hok : r.ok = true
    · rcases hj : r.json with msg | d <;>
        simp [isrTest3Record, hj, hok, validStatus, fieldDiscipline, responseStatus]
    · simp [isrTest3Record, hok, validStatus, fieldDiscipline, responseStatus]

/-- Case analysis on ISR test 4. -/
theorem isrTest4Record_props (o : FetchOutcome) :
    validStatus (isrTest4Record o).status = true ∧
    fieldDiscipline (isrTest4Record o) = true := by
  rcases o with msg | r <;> exact ⟨rfl, rfl⟩

/-- C4: for every execution of getSSRData and of getISRData, whatever
each of the four calls does (succeed, return non-2xx, or throw), the
returned fetchTests array has length exactly 4: each guarded test case
appends exactly one record. -/
theorem claim_C4_always_four_records (env : SSREnv) (env2 : ISREnv)
    (o1 o2 o3 o4 p1 p2 p3 p4 : FetchOutcome) :
    (getSSRData env o1 o2 o3 o4).fetchTests.length = 4 ∧
    (getISRData env2 p1 p2 p3 p4).fetchTests.length = 4 :=
  ⟨rfl, rfl⟩

/-- C5: no exception escapes its own try/catch block. In the
embedding, each entry of fetchTests is a total function of only the
outcome of its own call, so a throw in one call (a thrown outcome)
never changes any other entry and never prevents the data functions
from returning all four records; and both page components render the
resulting array into exactly four display blocks for every outcome
combination, including the one where all four calls throw. -/
theorem claim_C5_failures_isolated_render_total (env : SSREnv) (env2 : ISREnv)
    (o1 o2 o3 o4 p1 p2 p3 p4 : FetchOutcome) :
    (getSSRData env o1 o2 o3 o4).fetchTests =
      [ssrTest1Record o1, ssrTest2Record o2, ssrTest3Record o3, ssrTest4Record o4] ∧
    (getISRData env2 p1 p2 p3 p4).fetchTests =
      [isrTest1Record p1, isrTest2Record p2, isrTest3Record p3, isrTest4Record p4] ∧
    (SSRPage env o1 o2 o3 o4).testBlocks =
      [renderSSRTestBlock (ssrTest1Record o1), renderSSRTestBlock (ssrTest2Record o2),
       renderSSRTestBlock (ssrTest3Record o3), renderSSRTestBlock (ssrTest4Record o4)] ∧
    (ISRPage env2 p1 p2 p3 p4).testBlocks =
      [renderISRTestBlock (isrTest1Record p1), renderISRTestBlock (isrTest2Record p2),
       renderISRTestBlock (isrTest3Record p3), renderISRTestBlock (isrTest4Record p4)] :=
  ⟨rfl, rfl, rfl, rfl⟩

/-- C7: every record either page ever appends carries a status, and it
is one of the five enumeration values SUCCESS, HTTP_ERROR,
NETWORK_ERROR, EXPECTED_ERROR, UNEXPECTED_SUCCESS, for every
combination of call outcomes. -/
theorem claim_C7_status_in_enumeration (env : SSREnv) (env2 : ISREnv)
    (o1 o2 o3 o4 p1 p2 p3 p4 : FetchOutcome) :
    ((getSSRData env o1 o2 o3 o4).fetchTests.all (fun t => validStatus t.status)) = true ∧
    ((getISRData env2 p1 p2 p3 p4).fetchTests.all (fun t => validStatus t.status)) = true := by
  constructor
  · simp [getSSRData, (ssrTest1Record_props o1).1, (ssrTest2Record_props o2).1,
      (ssrTest3Record_props o3).1, (ssrTest4Record_props o4).1]
  · simp [getISRData, (isrTest1Record_props p1).1, (isrTest2Record_props p2).1,
      (isrTest3Record_props p3).1, (isrTest4Record_props p4).1]

/-- C8: each page handler attempts exactly four outbound calls, in
source order, directed only at the fixed test endpoints: the json,
delay/2, non-existent-domain and post requests on the SSR page, and
the uuid, ip, delay/1 and status/500 requests on the ISR page; the
number of records collected always equals the number of requests
attempted. -/
theorem claim_C8_fixed_requests (env : SSREnv) (env2 : ISREnv)
    (o1 o2 o3 o4 p1 p2 p3 p4 : FetchOutcome) :
    getSSRDataRequests.map HttpRequest.url =
      ["https://httpbin.org/json", "https://httpbin.org/delay/2",
       "https://non-existent-domain-12345.com/api/test", "https://httpbin.org/post"] ∧
    getSSRDataRequests.map HttpRequest.method = ["GET", "GET", "GET", "POST"] ∧
    getISRDataRequests.map HttpRequest.url =
      ["https://httpbin.org/uuid", "https://httpbin.org/ip",
       "https://httpbin.org/delay/1", "https://httpbin.org/status/500"] ∧
    getISRDataRequests.map HttpRequest.method = ["GET", "GET", "GET", "GET"] ∧
    (getSSRData env o1 o2 o3 o4).fetchTests.length = getSSRDataRequests.length ∧
    (getISRData env2 p1 p2 p3 p4).fetchTests.length = getISRDataRequests.length :=
  ⟨rfl, rfl, rfl, rfl, rfl, rfl⟩

/-- C10: for every combination of call outcomes, every record either
page appends respects the field discipline: a record with status
NETWORK_ERROR or EXPECTED_ERROR (the two statuses produced only in
catch blocks) has neither statusCode nor data set, and a record with
statusCode or data set has one of the statuses built from a completed
response (SUCCESS, HTTP_ERROR, UNEXPECTED_SUCCESS). -/
theorem claim_C10_catch_records_bare (env : SSREnv) (env2 : ISREnv)
    (o1 o2 o3 o4 p1 p2 p3 p4 : FetchOutcome) :
    ((getSSRData env o1 o2 o3 o4).fetchTests.all fieldDiscipline) = true ∧
    ((getISRData env2 p1 p2 p3 p4).fetchTests.all fieldDiscipline) = true := by
  constructor
  · simp [getSSRData, (ssrTest1Record_props o1).2, (ssrTest2Record_props o2).2,
      (ssrTest3Record_props o3).2, (ssrTest4Record_props o4).2]
  · simp [getISRData, (isrTest1Record_props p1).2, (isrTest2Record_props p2).2,
      (isrTest3Record_props p3).2, (isrTest4Record_props p4).2]

/-- C1 as stated is refuted at five of the eight calls by one input:
with every call completing with an ok 200 response whose JSON body is
null, the SSR non-existent-domain probe records UNEXPECTED_SUCCESS;
the SSR POST call records NETWORK_ERROR, because the base access of
the json property of the null body throws a TypeError before the
optional chain applies; the ISR uuid and ip calls record NETWORK_ERROR
for the same reason on their uuid and origin accesses; and the ISR
status/500 call records HTTP_ERROR, having no ok branch at all. None
of these five records is SUCCESS despite the 2xx response. -/
theorem claim_C1_counterexample :
    Response.ok ⟨200, none, Except.ok JsonVal.null⟩ = true ∧
    ((getSSRData ⟨"t", "t", "t", 0, 0, "h"⟩
        (FetchOutcome.response ⟨200, none, Except.ok JsonVal.null⟩)
        (FetchOutcome.response ⟨200, none, Except.ok JsonVal.null⟩)
        (FetchOutcome.response ⟨200, none, Except.ok JsonVal.null⟩)
        (FetchOutcome.response ⟨200, none, Except.ok JsonVal.null⟩)).fetchTests.map
      (fun t => t.status)) =
      ["SUCCESS", "SUCCESS", "UNEXPECTED_SUCCESS", "NETWORK_ERROR"] ∧
    ((getISRData ⟨"t"⟩
        (FetchOutcome.response ⟨200, none, Except.ok JsonVal.null⟩)
        (FetchOutcome.response ⟨200, none, Except.ok JsonVal.null⟩)
        (FetchOutcome.response ⟨200, none, Except.ok JsonVal.null⟩)
        (FetchOutcome.response ⟨200, none, Except.ok JsonVal.null⟩)).fetchTests.map
      (fun t => t.status)) =
      ["NETWORK_ERROR", "NETWORK_ERROR", "SUCCESS", "HTTP_ERROR"] := by
  refine ⟨by decide, rfl, rfl⟩

/-- C1 amended: among the calls that branch on response.ok, the three
that do not touch the parsed body beyond consuming it (SSR normal
fetch, SSR timeout test, ISR slow endpoint) append a SUCCESS record
with statusCode equal to the numeric response status whenever the call
completes with an ok 2xx response and a readable body; the three that
read a property off the parsed body (SSR POST, ISR uuid, ISR ip) do so
exactly when that body is additionally not null, since a null body
makes the property access throw inside the try block and the catch
records NETWORK_ERROR. The SSR non-existent-domain probe records any
completed response as UNEXPECTED_SUCCESS and the ISR status/500 call
records any completed response as HTTP_ERROR, so both stay outside the
amended claim; the counterexample exhibits all five exclusions. -/
theorem claim_C1_success_records (r : Response) (d : JsonVal)
    (hok : r.ok = true) (hj : r.json = Except.ok d) :
    ((ssrTest1Record (FetchOutcome.response r)).status = "SUCCESS" ∧
     (ssrTest1Record (FetchOutcome.response r)).statusCode = some r.status) ∧
    ((ssrTest2Record (FetchOutcome.response r)).status = "SUCCESS" ∧
     (ssrTest2Record (FetchOutcome.response r)).statusCode = some r.status) ∧
    ((isrTest3Record (FetchOutcome.response r)).status = "SUCCESS" ∧
     (isrTest3Record (FetchOutcome.response r)).statusCode = some r.status) ∧
    (d ≠ JsonVal.null →
      ((ssrTest4Record (FetchOutcome.response r)).status = "SUCCESS" ∧
       (ssrTest4Record (FetchOutcome.response r)).statusCode = some r.status) ∧
      ((isrTest1Record (FetchOutcome.response r)).status = "SUCCESS" ∧
       (isrTest1Record (FetchOutcome.response r)).statusCode = some r.status) ∧
      ((isrTest2Record (FetchOutcome.response r)).status = "SUCCESS" ∧
       (isrTest2Record (FetchOutcome.response r)).statusCode = some r.status)) := by
  refine ⟨?_, ?_, ?_, ?_⟩
  · simp [ssrTest1Record, hok, hj]
  · simp [ssrTest2Record, hok, hj]
  · simp [isrTest3Record, hok, hj]
  · intro hd
    rcases d with _ | b | n | s | xs | fs <;>
      first
        | exact absurd rfl hd
        | simp [ssrTest4Record, isrTest1Record, isrTest2Record, jsAccess, hok, hj]

/-- Witness for the amended C1 at a concrete ok response whose body is
a non-null object. -/
theorem claim_C1_success_records_witness :
    Response.ok ⟨204, some "edge-proxy", Except.ok (JsonVal.obj [])⟩ = true ∧
    (ssrTest1Record
        (FetchOutcome.response ⟨204, some "edge-proxy", Except.ok (JsonVal.obj [])⟩)).status =
      "SUCCESS" ∧
    (ssrTest1Record
        (FetchOutcome.response ⟨204, some "edge-proxy", Except.ok (JsonVal.obj [])⟩)).statusCode =
      some 204 ∧
    (isrTest1Record
        (FetchOutcome.response ⟨204, some "edge-proxy", Except.ok (JsonVal.obj [])⟩)).status =
      "SUCCESS" :=
  ⟨by decide,
   (claim_C1_success_records ⟨204, some "edge-proxy", Except.ok (JsonVal.obj [])⟩
      (JsonVal.obj []) (by decide) rfl).1.1,
   (claim_C1_success_records ⟨204, some "edge-proxy", Except.ok (JsonVal.obj [])⟩
      (JsonVal.obj []) (by decide) rfl).1.2,
   ((claim_C1_success_records ⟨204, some "edge-proxy", Except.ok (JsonVal.obj [])⟩
      (JsonVal.obj []) (by decide) rfl).2.2.2
      (fun h => JsonVal.noConfusion h)).2.1.1⟩

/-- C2 as stated is refuted by SSR test 3: a completed non-2xx
response on the non-existent-domain probe is recorded as
UNEXPECTED_SUCCESS, not HTTP_ERROR. -/
theorem claim_C2_counterexample :
    Response.ok ⟨404, none, Except.ok JsonVal.null⟩ = false ∧
    (ssrTest3Record (FetchOutcome.response ⟨404, none, Except.ok JsonVal.null⟩)).status =
      "UNEXPECTED_SUCCESS" ∧
    (ssrTest3Record (FetchOutcome.response ⟨404, none, Except.ok JsonVal.null⟩)).status ≠
      "HTTP_ERROR" := by
  refine ⟨by decide, rfl, by decide⟩

/-- C2 amended: for every call except the SSR non-existent-domain
probe, a call that completes with a non-2xx response appends a record
with status HTTP_ERROR and statusCode equal to the numeric response
status; the ISR status/500 call does so for every completed response. -/
theorem claim_C2_http_error_records (r : Response) (hok : r.ok = false) :
    ((ssrTest1Record (FetchOutcome.response r)).status = "HTTP_ERROR" ∧
     (ssrTest1Record (FetchOutcome.response r)).statusCode = some r.status) ∧
    ((ssrTest2Record (FetchOutcome.response r)).status = "HTTP_ERROR" ∧
     (ssrTest2Record (FetchOutcome.response r)).statusCode = some r.status) ∧
    ((ssrTest4Record (FetchOutcome.response r)).status = "HTTP_ERROR" ∧
     (ssrTest4Record (FetchOutcome.response r)).statusCode = some r.status) ∧
    ((isrTest1Record (FetchOutcome.response r)).status = "HTTP_ERROR" ∧
     (isrTest1Record (FetchOutcome.response r)).statusCode = some r.status) ∧
    ((isrTest2Record (FetchOutcome.response r)).status = "HTTP_ERROR" ∧
     (isrTest2Record (FetchOutcome.response r)).statusCode = some r.status) ∧
    ((isrTest3Record (FetchOutcome.response r)).status = "HTTP_ERROR" ∧
     (isrTest3Record (FetchOutcome.response r)).statusCode = some r.status) ∧
    ((isrTest4Record (FetchOutcome.response r)).status = "HTTP_ERROR" ∧
     (isrTest4Record (FetchOutcome.response r)).statusCode = some r.status) := by
  simp [ssrTest1Record, ssrTest2Record, ssrTest4Record,
    isrTest1Record, isrTest2Record, isrTest3Record, isrTest4Record, hok]

/-- Witness for the amended C2 at a concrete 500 response. -/
theorem claim_C2_http_error_records_witness :
    Response.ok ⟨500, none, Except.ok JsonVal.null⟩ = false ∧
    (ssrTest1Record (FetchOutcome.response ⟨500, none, Except.ok JsonVal.null⟩)).status =
      "HTTP_ERROR" ∧
    (ssrTest1Record (FetchOutcome.response ⟨500, none, Except.ok JsonVal.null⟩)).statusCode =
      some 500 :=
  ⟨by decide,
   (claim_C2_http_error_records ⟨500, none, Except.ok JsonVal.null⟩ (by decide)).1.1,
   (claim_C2_http_error_records ⟨500, none, Except.ok JsonVal.null⟩ (by decide)).1.2⟩

/-- Record shape produced by a throwing call outside the probe: status
NETWORK_ERROR, error field equal to the exception message, hence
non-empty whenever the message is. -/
def networkErrorRecord (msg : String) (t : FetchTestResult) : Prop :=
  t.status = "NETWORK_ERROR" ∧ t.error = some msg ∧ t.error ≠ some ""

/-- C3 as stated is refuted at two inputs: a throw on the SSR
non-existent-domain probe is recorded with status EXPECTED_ERROR, not
NETWORK_ERROR; and a throw whose exception message text is the empty
string (an Error constructed with no message) is recorded with an
empty error field on the SSR normal fetch, so the error field of a
network-error record is not always a non-empty string. Both failures
force the two changes the amendment makes. -/
theorem claim_C3_counterexample :
    (ssrTest3Record (FetchOutcome.thrown "getaddrinfo ENOTFOUND")).status =
      "EXPECTED_ERROR" ∧
    (ssrTest3Record (FetchOutcome.thrown "getaddrinfo ENOTFOUND")).status ≠
      "NETWORK_ERROR" ∧
    (ssrTest1Record (FetchOutcome.thrown "")).status = "NETWORK_ERROR" ∧
    (ssrTest1Record (FetchOutcome.thrown "")).error = some "" := by
  refine ⟨rfl, by decide, rfl, rfl⟩

/-- C3 amended: for every call except the SSR non-existent-domain
probe, a throw of the fetch, and likewise a throw of the body read
after an ok response, appends a record with status NETWORK_ERROR whose
error field is exactly the exception message, hence non-empty whenever
the message is non-empty; the probe itself records the same message
under status EXPECTED_ERROR. -/
theorem claim_C3_network_error_records (msg : String) (hm : msg ≠ "")
    (r : Response) (hok : r.ok = true) (hj : r.json = Except.error msg) :
    (networkErrorRecord msg (ssrTest1Record (FetchOutcome.thrown msg)) ∧
     networkErrorRecord msg (ssrTest2Record (FetchOutcome.thrown msg)) ∧
     networkErrorRecord msg (ssrTest4Record (FetchOutcome.thrown msg)) ∧
     networkErrorRecord msg (isrTest1Record (FetchOutcome.thrown msg)) ∧
     networkErrorRecord msg (isrTest2Record (FetchOutcome.thrown msg)) ∧
     networkErrorRecord msg (isrTest3Record (FetchOutcome.thrown msg)) ∧
     networkErrorRecord msg (isrTest4Record (FetchOutcome.thrown msg))) ∧
    ((ssrTest3Record (FetchOutcome.thrown msg)).status = "EXPECTED_ERROR" ∧
     (ssrTest3Record (FetchOutcome.thrown msg)).error = some msg) ∧
    (networkErrorRecord msg (ssrTest1Record (FetchOutcome.response r)) ∧
     networkErrorRecord msg (ssrTest2Record (FetchOutcome.response r)) ∧
     networkErrorRecord msg (ssrTest4Record (FetchOutcome.response r)) ∧
     networkErrorRecord msg (isrTest1Record (FetchOutcome.response r)) ∧
     networkErrorRecord msg (isrTest2Record (FetchOutcome.response r)) ∧
     networkErrorRecord msg (isrTest3Record (FetchOutcome.response r))) := by
  refine ⟨?_, ⟨rfl, rfl⟩, ?_⟩ <;>
    simp [networkErrorRecord, ssrTest1Record, ssrTest2Record, ssrTest4Record,
      isrTest1Record, isrTest2Record, isrTest3Record, isrTest4Record, hok, hj, hm]

/-- Witness for the amended C3 at a concrete thrown message and a
concrete ok response whose body read throws. -/
theorem claim_C3_network_error_records_witness :
    ("fetch failed" : String) ≠ "" ∧
    Response.ok ⟨200, none, Except.error "fetch failed"⟩ = true ∧
    networkErrorRecord "fetch failed" (ssrTest1Record (FetchOutcome.thrown "fetch failed")) ∧
    networkErrorRecord "fetch failed"
      (ssrTest1Record (FetchOutcome.response ⟨200, none, Except.error "fetch failed"⟩)) :=
  ⟨by decide, by decide,
   (claim_C3_network_error_records "fetch failed" (by decide)
      ⟨200, none, Except.error "fetch failed"⟩ (by decide) rfl).1.1,
   (claim_C3_network_error_records "fetch failed" (by decide)
      ⟨200, none, Except.error "fetch failed"⟩ (by decide) rfl).2.2.1⟩

/-- C6 as stated is refuted by SSR test 1: its catch record carries
the exception message but sets no proxyUsed field at all. -/
theorem claim_C6_counterexample :
    (ssrTest1Record (FetchOutcome.thrown "socket hang up")).status = "NETWORK_ERROR" ∧
    (ssrTest1Record (FetchOutcome.thrown "socket hang up")).error = some "socket hang up" ∧
    (ssrTest1Record (FetchOutcome.thrown "socket hang up")).proxyUsed = none := by
  refine ⟨rfl, rfl, rfl⟩

/-- C6 amended: every catch record carries the exception message, but
only the SSR timeout and non-existent-domain calls and all four ISR
calls also carry a hardcoded proxy-behavior guess in proxyUsed
(likely_proxy or proxy_attempted); the catch records of the SSR normal
fetch and of the SSR POST request set no proxyUsed field. -/
theorem claim_C6_catch_proxy_guess (msg : String) :
    ((ssrTest2Record (FetchOutcome.thrown msg)).error = some msg ∧
     (ssrTest2Record (FetchOutcome.thrown msg)).proxyUsed = some "likely_proxy") ∧
    ((ssrTest3Record (FetchOutcome.thrown msg)).error = some msg ∧
     (ssrTest3Record (FetchOutcome.thrown msg)).proxyUsed = some "proxy_attempted") ∧
    ((isrTest1Record (FetchOutcome.thrown msg)).error = some msg ∧
     (isrTest1Record (FetchOutcome.thrown msg)).proxyUsed = some "likely_proxy") ∧
    ((isrTest2Record (FetchOutcome.thrown msg)).error = some msg ∧
     (isrTest2Record (FetchOutcome.thrown msg)).proxyUsed = some "likely_proxy") ∧
    ((isrTest3Record (FetchOutcome.thrown msg)).error = some msg ∧
     (isrTest3Record (FetchOutcome.thrown msg)).proxyUsed = some "proxy_attempted") ∧
    ((isrTest4Record (FetchOutcome.thrown msg)).error = some msg ∧
     (isrTest4Record (FetchOutcome.thrown msg)).proxyUsed = some "proxy_attempted") ∧
    ((ssrTest1Record (FetchOutcome.thrown msg)).error = some msg ∧
     (ssrTest1Record (FetchOutcome.thrown msg)).proxyUsed = none) ∧
    ((ssrTest4Record (FetchOutcome.thrown msg)).error = some msg ∧
     (ssrTest4Record (FetchOutcome.thrown msg)).proxyUsed = none) :=
  ⟨⟨rfl, rfl⟩, ⟨rfl, rfl⟩, ⟨rfl, rfl⟩, ⟨rfl, rfl⟩,
   ⟨rfl, rfl⟩, ⟨rfl, rfl⟩, ⟨rfl, rfl⟩, ⟨rfl, rfl⟩⟩

/-- C9: every success record sources its proxyUsed field from the
oe-proxy-used response header when that header is present and
non-empty, and otherwise, both when the header is absent and when it
is present but empty and hence falsy, from the hardcoded per-call
fallback, which is unknown or likely_proxy. The three calls that read
a property off the parsed body produce their success record exactly
when the body is not null, so their conjuncts carry that guard; the
other three need none. -/
theorem claim_C9_proxy_header_or_fallback (r : Response) (d : JsonVal)
    (hok : r.ok = true) (hj : r.json = Except.ok d) :
    (∀ v, r.oeProxyUsed = some v → v ≠ "" →
      ((ssrTest1Record (FetchOutcome.response r)).proxyUsed = some v ∧
       (ssrTest2Record (FetchOutcome.response r)).proxyUsed = some v ∧
       (isrTest3Record (FetchOutcome.response r)).proxyUsed = some v ∧
       (d ≠ JsonVal.null →
         (ssrTest4Record (FetchOutcome.response r)).proxyUsed = some v ∧
         (isrTest1Record (FetchOutcome.response r)).proxyUsed = some v ∧
         (isrTest2Record (FetchOutcome.response r)).proxyUsed = some v))) ∧
    (r.oeProxyUsed = none →
      ((ssrTest1Record (FetchOutcome.response r)).proxyUsed = some "unknown" ∧
       (ssrTest2Record (FetchOutcome.response r)).proxyUsed = some "likely_proxy" ∧
       (isrTest3Record (FetchOutcome.response r)).proxyUsed = some "likely_proxy" ∧
       (d ≠ JsonVal.null →
         (ssrTest4Record (FetchOutcome.response r)).proxyUsed = some "unknown" ∧
         (isrTest1Record (FetchOutcome.response r)).proxyUsed = some "unknown" ∧
         (isrTest2Record (FetchOutcome.response r)).proxyUsed = some "unknown"))) ∧
    (r.oeProxyUsed = some "" →
      ((ssrTest1Record (FetchOutcome.response r)).proxyUsed = some "unknown" ∧
       (ssrTest2Record (FetchOutcome.response r)).proxyUsed = some "likely_proxy" ∧
       (isrTest3Record (FetchOutcome.response r)).proxyUsed = some "likely_proxy" ∧
       (d ≠ JsonVal.null →
         (ssrTest4Record (FetchOutcome.response r)).proxyUsed = some "unknown" ∧
         (isrTest1Record (FetchOutcome.response r)).proxyUsed = some "unknown" ∧
         (isrTest2Record (FetchOutcome.response r)).proxyUsed = some "unknown"))) := by
  refine ⟨?_, ?_, ?_⟩
  · intro v hv hne
    refine ⟨?_, ?_, ?_, ?_⟩
    · simp [ssrTest1Record, jsOrString, hok, hj, hv, hne]
    · simp [ssrTest2Record, jsOrString, hok, hj, hv, hne]
    · simp [isrTest3Record, jsOrString, hok, hj, hv, hne]
    · intro hd
      rcases d with _ | b | n | s | xs | fs <;>
        first
          | exact absurd rfl hd
          | simp [ssrTest4Record, isrTest1Record, isrTest2Record, jsAccess,
              jsOrString, hok, hj, hv, hne]
  · intro hv
    refine ⟨?_, ?_, ?_, ?_⟩
    · simp [ssrTest1Record, jsOrString, hok, hj, hv]
    · simp [ssrTest2Record, jsOrString, hok, hj, hv]
    · simp [isrTest3Record, jsOrString, hok, hj, hv]
    · intro hd
      rcases d with _ | b | n | s | xs | fs <;>
        first
          | exact absurd rfl hd
          | simp [ssrTest4Record, isrTest1Record, isrTest2Record, jsAccess,
              jsOrString, hok, hj, hv]
  · intro hv
    refine ⟨?_, ?_, ?_, ?_⟩
    · simp [ssrTest1Record, jsOrString, hok, hj, hv]
    · simp [ssrTest2Record, jsOrString, hok, hj, hv]
    · simp [isrTest3Record, jsOrString, hok, hj, hv]
    · intro hd
      rcases d with _ | b | n | s | xs | fs <;>
        first
          | exact absurd rfl hd
          | simp [ssrTest4Record, isrTest1Record, isrTest2Record, jsAccess,
              jsOrString, hok, hj, hv]

/-- Witness for C9 at concrete responses covering all three header
cases: present and non-empty, absent, and present but empty. -/
theorem claim_C9_proxy_header_or_fallback_witness :
    Response.ok ⟨200, some "cdn-proxy", Except.ok (JsonVal.obj [])⟩ = true ∧
    ("cdn-proxy" : String) ≠ "" ∧
    (ssrTest1Record
        (FetchOutcome.response ⟨200, some "cdn-proxy", Except.ok (JsonVal.obj [])⟩)).proxyUsed =
      some "cdn-proxy" ∧
    (ssrTest2Record
        (FetchOutcome.response ⟨200, none, Except.ok (JsonVal.obj [])⟩)).proxyUsed =
      some "likely_proxy" ∧
    (ssrTest1Record
        (FetchOutcome.response ⟨200, some "", Except.ok (JsonVal.obj [])⟩)).proxyUsed =
      some "unknown" ∧
    (isrTest1Record
        (FetchOutcome.response ⟨200, none, Except.ok (JsonVal.obj [])⟩)).proxyUsed =
      some "unknown" :=
  ⟨by decide, by decide,
   ((claim_C9_proxy_header_or_fallback ⟨200, some "cdn-proxy", Except.ok (JsonVal.obj [])⟩
      (JsonVal.obj []) (by decide) rfl).1 "cdn-proxy" rfl (by decide)).1,
   ((claim_C9_proxy_header_or_fallback ⟨200, none, Except.ok (JsonVal.obj [])⟩
      (JsonVal.obj []) (by decide) rfl).2.1 rfl).2.1,
   ((claim_C9_proxy_header_or_fallback ⟨200, some "", Except.ok (JsonVal.obj [])⟩
      (JsonVal.obj []) (by decide) rfl).2.2 rfl).1,
   (((claim_C9_proxy_header_or_fallback ⟨200, none, Except.ok (JsonVal.obj [])⟩
      (JsonVal.obj []) (by decide) rfl).2.1 rfl).2.2.2
      (fun h => JsonVal.noConfusion h)).2.1⟩
